import Mathlib

/-!
Shallow embedding of `src/Diagrama_y_Arquitectura/tm.py`, a declarative
pytm threat-model script.  The script is a flat sequence of object
constructions and attribute assignments followed by a guarded terminal
`tm.process()` call; we embed it as a list of statements acting on a
state that maps entity identifiers to their kind and attribute values.
-/

namespace GymCoachTM

/-- Modelled from the spec: the library's fixed ordered classification
enumeration (PUBLIC < SENSITIVE < RESTRICTED); the library itself is not
part of this repository.  The script uses `SENSITIVE` and `RESTRICTED`. -/
inductive Classification
  | PUBLIC
  | SENSITIVE
  | RESTRICTED
  deriving DecidableEq, Repr

/-- Rank realising the spec's order PUBLIC < SENSITIVE < RESTRICTED. -/
def Classification.rank : Classification → Nat
  | .PUBLIC => 0
  | .SENSITIVE => 1
  | .RESTRICTED => 2

/-- Modelled from the spec: the library's datastore-type enumeration
(the library is not part of this repository).  `NOSQL` is its
document-store member; the script assigns `SQL`. -/
inductive DatastoreType
  | UNKNOWN
  | FILE_SYSTEM
  | SQL
  | LDAP
  | NOSQL
  deriving DecidableEq, Repr

/-- Modelled from the spec: the library's TLS version enumeration; the
script uses `TLSv12`. -/
inductive TLSVersion
  | SSLv3
  | TLSv1
  | TLSv11
  | TLSv12
  | TLSv13
  deriving DecidableEq, Repr

/-- The variables the script binds, one per constructed object
(tm.py lines 16-196). -/
inductive EntityId
  | tmModel
  | internet
  | app_boundary
  | cloud_db_boundary
  | user
  | coach
  | frontend
  | api_server
  | app_db
  | credentials
  | profile_data
  | workout_data
  | class_schedule
  | session_token
  | user_to_frontend
  | frontend_to_user
  | coach_to_frontend
  | frontend_to_coach
  | frontend_to_api
  | api_to_frontend
  | api_to_db_auth
  | db_to_api_auth
  | api_to_db_profile
  | db_to_api_profile
  | api_to_db_workouts
  | db_to_api_workouts
  | api_to_db_classes
  | db_to_api_classes
  deriving DecidableEq, Repr, Fintype

/-- The library classes the script instantiates. -/
inductive EntityKind
  | tm
  | boundary
  | actor
  | server
  | datastore
  | data
  | dataflow
  deriving DecidableEq, Repr

/-- The attribute names the script assigns (nested `controls.x`
attributes are flattened to `controls_x`). -/
inductive AttrName
  | name
  | description
  | isOrdered
  | mergeResponses
  | assumptions
  | inBoundary
  | OS
  | controls_sanitizesInput
  | controls_encodesOutput
  | controls_isHardened
  | controls_authorizesSource
  | sourceFiles
  | type
  | inScope
  | maxClassification
  | storesPII
  | storesSensitiveData
  | port
  | protocol
  | classification
  | isPII
  | isStored
  | isDestEncryptedAtRest
  | source
  | sink
  | dstPort
  | tlsVersion
  | data
  | usesSessionTokens
  | traverses
  | processedBy
  deriving DecidableEq, Repr

/-- Attribute values as the script writes them. -/
inductive Value
  | vBool (b : Bool)
  | vNat (n : Nat)
  | vStr (s : String)
  | vStrs (l : List String)
  | vClass (c : Classification)
  | vDsType (t : DatastoreType)
  | vTls (t : TLSVersion)
  | vRef (e : EntityId)
  | vRefs (l : List EntityId)
  deriving DecidableEq, Repr

/-- One top-level statement of the script: a construction (constructor
arguments recorded as initial attributes), an attribute assignment, a
hypothetical read of an external input into an attribute (the statement
language can express input-dependence; this script never uses it), or
the terminal `tm.process()` call. -/
inductive Stmt
  | construct (e : EntityId) (k : EntityKind) (args : List (AttrName × Value))
  | assign (e : EntityId) (a : AttrName) (v : Value)
  | readInto (idx : Nat) (e : EntityId) (a : AttrName)
  | process
  deriving DecidableEq, Repr

/-- Attribute store of one entity. -/
abbrev Attrs := List (AttrName × Value)

/-- Execution state: constructed entities in construction order. -/
abbrev State := List (EntityId × EntityKind × Attrs)

/-- External world an execution could read from (never read here). -/
abbrev World := Nat → Nat

/-- Externally visible effects; only `tm.process()` produces one. -/
inductive Effect
  | processCall (st : State)
  deriving DecidableEq, Repr

/-- Set an attribute, overwriting an earlier value for the same name. -/
def setAttr : Attrs → AttrName → Value → Attrs
  | [], a, v => [(a, v)]
  | (a', v') :: rest, a, v =>
      if a' = a then (a, v) :: rest else (a', v') :: setAttr rest a v

/-- Read an attribute. -/
def getAttr : Attrs → AttrName → Option Value
  | [], _ => none
  | (a', v') :: rest, a => if a' = a then some v' else getAttr rest a

/-- Update one entity's attribute in the state. -/
def updateEntity : State → EntityId → AttrName → Value → State
  | [], _, _, _ => []
  | (e', k, attrs) :: rest, e, a, v =>
      if e' = e then (e', k, setAttr attrs a v) :: rest
      else (e', k, attrs) :: updateEntity rest e a v

/-- Small-step semantics of one statement. -/
def execStmt (w : World) (st : State) : Stmt → State × List Effect
  | .construct e k args => (st ++ [(e, k, args)], [])
  | .assign e a v => (updateEntity st e a v, [])
  | .readInto idx e a => (updateEntity st e a (.vNat (w idx)), [])
  | .process => (st, [.processCall st])

/-- Execute a statement list, collecting effects. -/
def execList (w : World) (st : State) : List Stmt → State × List Effect
  | [] => (st, [])
  | s :: rest =>
      let p := execStmt w st s
      let q := execList w p.1 rest
      (q.1, p.2 ++ q.2)

/-- Script statements, part 0 (source order). -/
def scriptPart0 : List Stmt := [
  .construct .tmModel .tm [(.name, .vStr ("GymCoach App Threat Model"))],
  .assign .tmModel .description (.vStr ("Web application for users and coaches to manage workouts, classes and progress. Architecture: HTML/JS frontend served by a Node.js/Express backend with MongoDB Atlas.")),
  .assign .tmModel .isOrdered (.vBool true),
  .assign .tmModel .mergeResponses (.vBool true),
  .assign .tmModel .assumptions (.vStrs [
    ("All external traffic to the application is over HTTPS through a cloud provider (e.g. Render/Heroku/Nginx)."),
    ("MongoDB Atlas is configured with authentication and network access control (IP allow-list / VPC peering)."),
    ("Passwords are stored hashed and never in plaintext."),
    ("Admins/coaches use the same web interface but have elevated privileges managed by application roles.")]),
  .construct .internet .boundary [(.name, .vStr ("Internet"))],
  .construct .app_boundary .boundary [(.name, .vStr ("Application Boundary"))],
  .construct .cloud_db_boundary .boundary [(.name, .vStr ("MongoDB Atlas Boundary"))],
  .construct .user .actor [(.name, .vStr ("End User"))],
  .assign .user .inBoundary (.vRef .internet),
  .assign .user .description (.vStr ("Gym app user that registers, logs in and manages personal workouts.")),
  .construct .coach .actor [(.name, .vStr ("Coach / Admin"))],
  .assign .coach .inBoundary (.vRef .internet),
  .assign .coach .description (.vStr ("Coach with elevated permissions to manage users, exercises and classes.")),
  .construct .frontend .server [(.name, .vStr ("Web Frontend (HTML/JS)"))]]

/-- Script statements, part 1 (source order). -/
def scriptPart1 : List Stmt := [
  .assign .frontend .inBoundary (.vRef .internet),
  .assign .frontend .OS (.vStr ("Browser")),
  .assign .frontend .description (.vStr ("Static HTML/CSS/JS served to the user browser.")),
  .assign .frontend .controls_sanitizesInput (.vBool false),
  .assign .frontend .controls_encodesOutput (.vBool true),
  .construct .api_server .server [(.name, .vStr ("Node.js Express API"))],
  .assign .api_server .inBoundary (.vRef .app_boundary),
  .assign .api_server .OS (.vStr ("Linux")),
  .assign .api_server .description (.vStr ("Node.js/Express backend defined in Server.js. Handles routes /users, /exercises, /clases and renders views.")),
  .assign .api_server .controls_isHardened (.vBool false),
  .assign .api_server .controls_sanitizesInput (.vBool true),
  .assign .api_server .controls_encodesOutput (.vBool true),
  .assign .api_server .controls_authorizesSource (.vBool true),
  .assign .api_server .sourceFiles (.vStrs [
    ("BACK/Controllers/Router.js"),
    ("BACK/Controllers/User.js"),
    ("BACK/Controllers/Exercises.js"),
    ("BACK/Controllers/Clases.js")]),
  .construct .app_db .datastore [(.name, .vStr ("MongoDB Atlas - App Database"))]]

/-- Script statements, part 2 (source order). -/
def scriptPart2 : List Stmt := [
  .assign .app_db .inBoundary (.vRef .cloud_db_boundary),
  .assign .app_db .OS (.vStr ("MongoDB Atlas")),
  .assign .app_db .type (.vDsType .SQL),
  .assign .app_db .inScope (.vBool true),
  .assign .app_db .controls_isHardened (.vBool true),
  .assign .app_db .maxClassification (.vClass .RESTRICTED),
  .assign .app_db .storesPII (.vBool true),
  .assign .app_db .storesSensitiveData (.vBool true),
  .assign .app_db .port (.vNat 27017),
  .assign .app_db .protocol (.vStr ("TLS over TCP")),
  .construct .credentials .data [(.name, .vStr ("User Credentials"))],
  .assign .credentials .description (.vStr ("Email and password used to authenticate users and coaches.")),
  .assign .credentials .classification (.vClass .SENSITIVE),
  .assign .credentials .isPII (.vBool true),
  .assign .credentials .isStored (.vBool true)]

/-- Script statements, part 3 (source order). -/
def scriptPart3 : List Stmt := [
  .assign .credentials .isDestEncryptedAtRest (.vBool true),
  .construct .profile_data .data [(.name, .vStr ("User Profile Data"))],
  .assign .profile_data .description (.vStr ("User and coach profile data (name, email, role, BMI, etc.).")),
  .assign .profile_data .classification (.vClass .RESTRICTED),
  .assign .profile_data .isPII (.vBool true),
  .assign .profile_data .isStored (.vBool true),
  .assign .profile_data .isDestEncryptedAtRest (.vBool true),
  .construct .workout_data .data [(.name, .vStr ("Workout and Routine Data"))],
  .assign .workout_data .description (.vStr ("Exercises, routines, goals, progress records.")),
  .assign .workout_data .classification (.vClass .SENSITIVE),
  .assign .workout_data .isStored (.vBool true),
  .assign .workout_data .isDestEncryptedAtRest (.vBool true),
  .construct .class_schedule .data [(.name, .vStr ("Class Schedule Data"))],
  .assign .class_schedule .description (.vStr ("Classes, schedules, coach assignments.")),
  .assign .class_schedule .classification (.vClass .SENSITIVE)]

/-- Script statements, part 4 (source order). -/
def scriptPart4 : List Stmt := [
  .assign .class_schedule .isStored (.vBool true),
  .assign .class_schedule .isDestEncryptedAtRest (.vBool true),
  .construct .session_token .data [
    (.name, .vStr ("Session / Auth Token")),
    (.description, .vStr ("Session cookie or JWT used to maintain authenticated sessions.")),
    (.classification, .vClass .SENSITIVE)],
  .construct .user_to_frontend .dataflow [(.source, .vRef .user), (.sink, .vRef .frontend), (.name, .vStr ("HTTP(S) Requests from User"))],
  .assign .user_to_frontend .protocol (.vStr ("HTTPS")),
  .assign .user_to_frontend .dstPort (.vNat 443),
  .construct .frontend_to_user .dataflow [(.source, .vRef .frontend), (.sink, .vRef .user), (.name, .vStr ("HTML/JS/CSS Responses to User"))],
  .assign .frontend_to_user .protocol (.vStr ("HTTPS")),
  .assign .frontend_to_user .dstPort (.vNat 443),
  .construct .coach_to_frontend .dataflow [(.source, .vRef .coach), (.sink, .vRef .frontend), (.name, .vStr ("HTTP(S) Requests from Coach/Admin"))],
  .assign .coach_to_frontend .protocol (.vStr ("HTTPS")),
  .assign .coach_to_frontend .dstPort (.vNat 443),
  .construct .frontend_to_coach .dataflow [(.source, .vRef .frontend), (.sink, .vRef .coach), (.name, .vStr ("HTML/JS/CSS Responses to Coach/Admin"))],
  .assign .frontend_to_coach .protocol (.vStr ("HTTPS")),
  .assign .frontend_to_coach .dstPort (.vNat 443)]

/-- Script statements, part 5 (source order). -/
def scriptPart5 : List Stmt := [
  .construct .frontend_to_api .dataflow [(.source, .vRef .frontend), (.sink, .vRef .api_server), (.name, .vStr ("API Calls (login, register, CRUD)"))],
  .assign .frontend_to_api .protocol (.vStr ("HTTPS")),
  .assign .frontend_to_api .dstPort (.vNat 443),
  .assign .frontend_to_api .tlsVersion (.vTls .TLSv12),
  .assign .frontend_to_api .data (.vRefs [.credentials, .profile_data, .workout_data, .class_schedule, .session_token]),
  .assign .frontend_to_api .usesSessionTokens (.vBool true),
  .construct .api_to_frontend .dataflow [(.source, .vRef .api_server), (.sink, .vRef .frontend), (.name, .vStr ("API Responses (JSON / HTML)"))],
  .assign .api_to_frontend .protocol (.vStr ("HTTPS")),
  .assign .api_to_frontend .dstPort (.vNat 443),
  .assign .api_to_frontend .tlsVersion (.vTls .TLSv12),
  .assign .api_to_frontend .data (.vRefs [.profile_data, .workout_data, .class_schedule, .session_token]),
  .construct .api_to_db_auth .dataflow [(.source, .vRef .api_server), (.sink, .vRef .app_db), (.name, .vStr ("Store / Read Credentials"))],
  .assign .api_to_db_auth .protocol (.vStr ("TLS")),
  .assign .api_to_db_auth .dstPort (.vNat 27017),
  .assign .api_to_db_auth .data (.vRef .credentials)]

/-- Script statements, part 6 (source order). -/
def scriptPart6 : List Stmt := [
  .construct .db_to_api_auth .dataflow [(.source, .vRef .app_db), (.sink, .vRef .api_server), (.name, .vStr ("Return Credentials / Auth Data"))],
  .assign .db_to_api_auth .protocol (.vStr ("TLS")),
  .assign .db_to_api_auth .dstPort (.vNat 27017),
  .assign .db_to_api_auth .data (.vRef .credentials),
  .construct .api_to_db_profile .dataflow [(.source, .vRef .api_server), (.sink, .vRef .app_db), (.name, .vStr ("Store / Read User Profiles"))],
  .assign .api_to_db_profile .protocol (.vStr ("TLS")),
  .assign .api_to_db_profile .dstPort (.vNat 27017),
  .assign .api_to_db_profile .data (.vRef .profile_data),
  .construct .db_to_api_profile .dataflow [(.source, .vRef .app_db), (.sink, .vRef .api_server), (.name, .vStr ("Return User Profiles"))],
  .assign .db_to_api_profile .protocol (.vStr ("TLS")),
  .assign .db_to_api_profile .dstPort (.vNat 27017),
  .assign .db_to_api_profile .data (.vRef .profile_data),
  .construct .api_to_db_workouts .dataflow [(.source, .vRef .api_server), (.sink, .vRef .app_db), (.name, .vStr ("CRUD Workouts and Routines"))],
  .assign .api_to_db_workouts .protocol (.vStr ("TLS")),
  .assign .api_to_db_workouts .dstPort (.vNat 27017)]

/-- Script statements, part 7 (source order). -/
def scriptPart7 : List Stmt := [
  .assign .api_to_db_workouts .data (.vRef .workout_data),
  .construct .db_to_api_workouts .dataflow [(.source, .vRef .app_db), (.sink, .vRef .api_server), (.name, .vStr ("Return Workouts and Routines"))],
  .assign .db_to_api_workouts .protocol (.vStr ("TLS")),
  .assign .db_to_api_workouts .dstPort (.vNat 27017),
  .assign .db_to_api_workouts .data (.vRef .workout_data),
  .construct .api_to_db_classes .dataflow [(.source, .vRef .api_server), (.sink, .vRef .app_db), (.name, .vStr ("CRUD Classes and Schedules"))],
  .assign .api_to_db_classes .protocol (.vStr ("TLS")),
  .assign .api_to_db_classes .dstPort (.vNat 27017),
  .assign .api_to_db_classes .data (.vRef .class_schedule),
  .construct .db_to_api_classes .dataflow [(.source, .vRef .app_db), (.sink, .vRef .api_server), (.name, .vStr ("Return Classes and Schedules"))],
  .assign .db_to_api_classes .protocol (.vStr ("TLS")),
  .assign .db_to_api_classes .dstPort (.vNat 27017),
  .assign .db_to_api_classes .data (.vRef .class_schedule),
  .assign .session_token .traverses (.vRefs [.frontend_to_api, .api_to_frontend]),
  .assign .session_token .processedBy (.vRefs [.api_server])]

/-- The script body (tm.py lines 16-203), statement by statement, in
source order: the TM object, boundaries, actors, servers, the
datastore, data objects, dataflows, and the late `session_token`
relationship assignments. -/
def script : List Stmt :=
  scriptPart0 ++ scriptPart1 ++ scriptPart2 ++ scriptPart3 ++ scriptPart4 ++ scriptPart5 ++ scriptPart6 ++ scriptPart7

/-- tm.py lines 205-206: `tm.process()` runs only under the
`__name__ == "__main__"` guard; importing the module runs the body
without the terminal call. -/
def scriptRun (isMain : Bool) : List Stmt :=
  script ++ (if isMain then [Stmt.process] else [])

/-- A fixed external world (irrelevant: the script reads no input). -/
def anyWorld : World := fun _ => 0

/-- The entity graph after the script body has run. -/
def finalState : State := (execList anyWorld [] script).1

/-- The entity an assignment statement mutates, if any. -/
def assignTarget : Stmt → Option EntityId
  | .assign e _ _ => some e
  | _ => none

/-- The attribute an assignment statement writes, if any. -/
def assignAttr : Stmt → Option AttrName
  | .assign _ a _ => some a
  | _ => none

/-- Whether a statement constructs or mutates the given entity. -/
def targets (s : Stmt) (e : EntityId) : Bool :=
  match s with
  | .construct e' _ _ => e' = e
  | .assign e' _ _ => e' = e
  | .readInto _ e' _ => e' = e
  | .process => false

/-- Whether a statement constructs the given entity. -/
def isConstructOf (e : EntityId) : Stmt → Bool
  | .construct e' _ _ => e' = e
  | _ => false

/-- The entity a statement constructs or assigns to, if any. -/
def stmtOwner : Stmt → Option EntityId
  | .construct e _ _ => some e
  | .assign e _ _ => some e
  | .readInto _ e _ => some e
  | .process => none

/-- The class a construction statement instantiates, if any. -/
def stmtKind : Stmt → Option EntityKind
  | .construct _ k _ => some k
  | _ => none

/-- The entity a value references, if it is a single reference. -/
def refOf : Value → Option EntityId
  | .vRef e => some e
  | _ => none

/-- The source endpoint a dataflow construction names, if any. -/
def stmtSource (s : Stmt) : Option EntityId :=
  match s with
  | .construct _ _ args => (getAttr args .source).bind refOf
  | _ => none

/-- The sink endpoint a dataflow construction names, if any. -/
def stmtSink (s : Stmt) : Option EntityId :=
  match s with
  | .construct _ _ args => (getAttr args .sink).bind refOf
  | _ => none

/-- Endpoint classes a dataflow may connect. -/
def isEndpointKind (k : EntityKind) : Bool :=
  k = .actor || k = .server || k = .datastore

/-- Whether a statement declares the given entity as an Actor, Server
or Datastore. -/
def constructsEndpoint (s : Stmt) (e : EntityId) : Bool :=
  match s with
  | .construct e' k _ => e' = e && isEndpointKind k
  | _ => false

/-- All entities a value references. -/
def dataRefs : Value → List EntityId
  | .vRef e => [e]
  | .vRefs l => l
  | _ => []

/-- The Data objects a statement attaches to a `data` attribute,
whether by assignment or by constructor argument. -/
def assignedDataRefs : Stmt → List EntityId
  | .assign _ .data v => dataRefs v
  | .construct _ _ args =>
      match getAttr args .data with
      | some v => dataRefs v
      | none => []
  | _ => []

/-- Whether a statement constructs the given entity as a Data object. -/
def isDataConstruct (d : EntityId) : Stmt → Bool
  | .construct e .data _ => e = d
  | _ => false

/-- The values a statement writes into `classification` or
`maxClassification`, whether by assignment or constructor argument. -/
def classValuesOf : Stmt → List Value
  | .assign _ .classification v => [v]
  | .assign _ .maxClassification v => [v]
  | .construct _ _ args =>
      (args.filter (fun q => q.1 = AttrName.classification ∨ q.1 = AttrName.maxClassification)).map (fun q => q.2)
  | _ => []

/-- The members of the classification enumeration. -/
def classificationMembers : List Classification :=
  [.PUBLIC, .SENSITIVE, .RESTRICTED]

/-- Statements that only construct entities or set attributes. -/
def isConstructive : Stmt → Bool
  | .construct _ _ _ => true
  | .assign _ _ _ => true
  | _ => false

/-- Whether a statement is the terminal `tm.process()` call. -/
def isProcess : Stmt → Bool
  | .process => true
  | _ => false

/-- Look up one attribute of one entity in a state. -/
def attrOf : State → EntityId → AttrName → Option Value
  | [], _, _ => none
  | (e', _, attrs) :: rest, e, a =>
      if e' = e then getAttr attrs a else attrOf rest e a

set_option maxRecDepth 4000

/-- A statement that constructs, assigns, or calls the processor never
consults the external world. -/
theorem execStmt_ignores_world (w w' : World) (st : State) (s : Stmt)
    (h : (isProcess s || isConstructive s) = true) :
    execStmt w st s = execStmt w' st s := by
  cases s <;> simp_all [execStmt, isProcess, isConstructive]

/-- A statement list free of world reads executes identically under any
two worlds. -/
theorem execList_ignores_world (w w' : World) (st : State) (l : List Stmt)
    (h : ∀ s ∈ l, (isProcess s || isConstructive s) = true) :
    execList w st l = execList w' st l := by
  induction l generalizing st with
  | nil => rfl
  | cons s rest ih =>
    have hs := h s (List.mem_cons_self _ _)
    have hr : ∀ x ∈ rest, (isProcess x || isConstructive x) = true :=
      fun x hx => h x (List.mem_cons_of_mem _ hx)
    simp only [execList]
    rw [execStmt_ignores_world w w' st s hs, ih _ hr]

/-- C1 counterexample: the claim that every attribute assignment occurs
immediately after its entity's construction (i.e. every assignment
statement directly follows a statement targeting the same entity) is
false: statement 118 assigns `session_token.traverses` while statement
117, right before it, targets `db_to_api_classes`; the construction of
`session_token` lies 56 statements earlier. -/
theorem C1_counterexample :
    script[118]? = some (Stmt.assign .session_token .traverses
      (.vRefs [.frontend_to_api, .api_to_frontend])) ∧
    script[117]? = some (Stmt.assign .db_to_api_classes .data (.vRef .class_schedule)) ∧
    ¬ (∀ p ∈ (Stmt.process :: script).zip script, ∀ e,
        assignTarget p.2 = some e → targets p.1 e = true) := by
  refine ⟨by decide, by decide, by decide⟩

/-- C1 (amended): every entity is constructed exactly once, every
attribute assignment immediately follows a statement targeting the same
entity except the two late `session_token` relationship assignments
(`traverses` and `processedBy`, placed after the dataflow
declarations), the final state holds each entity exactly once, the
terminal `tm.process()` call is the last statement of a main-program
run, and no statement (hence no mutation or destruction) follows it. -/
theorem C1_entity_lifecycle :
    (∀ p ∈ (Stmt.process :: scriptRun true).zip (scriptRun true), ∀ e,
        assignTarget p.2 = some e →
        targets p.1 e = true ∨
          (e = .session_token ∧
            (assignAttr p.2 = some .traverses ∨ assignAttr p.2 = some .processedBy))) ∧
    (∀ e : EntityId, (scriptRun true).countP (isConstructOf e) = 1) ∧
    (∀ e : EntityId, finalState.countP (fun q => q.1 = e) = 1) ∧
    (scriptRun true).getLast? = some Stmt.process ∧
    (∀ p ∈ (scriptRun true).zip (scriptRun true).tail, p.1 ≠ Stmt.process) := by
  decide

/-- C1 witness: the `user.inBoundary` assignment directly follows the
construction of `user`. -/
theorem C1_witness :
    targets (Stmt.construct .user .actor [(.name, .vStr ("End User"))]) EntityId.user = true ∨
    (EntityId.user = .session_token ∧
      (assignAttr (Stmt.assign .user .inBoundary (.vRef .internet)) = some .traverses ∨
       assignAttr (Stmt.assign .user .inBoundary (.vRef .internet)) = some .processedBy)) :=
  C1_entity_lifecycle.1
    (Stmt.construct .user .actor [(.name, .vStr ("End User"))],
     Stmt.assign .user .inBoundary (.vRef .internet))
    (by decide) EntityId.user (by decide)

/-- C2: the single Datastore is assigned `DatastoreType.SQL`, which is
not the document-store member of the datastore-type enumeration; the
source's own comment on the assignment ("MongoDB is a document store")
and the spec's description of the store as a cloud document database
say the document-store member was intended. -/
theorem C2_store_type_eval :
    attrOf finalState .app_db .type = some (.vDsType .SQL) ∧
    DatastoreType.SQL ≠ DatastoreType.NOSQL := by
  refine ⟨by decide, by decide⟩

/-- C3: every Dataflow in the final graph whose source or sink is the
datastore `app_db` carries destination port 27017, which is also the
port assigned to the datastore itself. -/
theorem C3_db_port_consistent (p : EntityId × EntityKind × Attrs)
    (hmem : p ∈ finalState) (hkind : p.2.1 = EntityKind.dataflow)
    (htouch : getAttr p.2.2 .source = some (.vRef .app_db) ∨
      getAttr p.2.2 .sink = some (.vRef .app_db)) :
    getAttr p.2.2 .dstPort = some (.vNat 27017) ∧
    attrOf finalState .app_db .port = some (.vNat 27017) := by
  revert hkind htouch; revert p; decide

/-- C3 witness: the `api_to_db_auth` flow (entry 20 of the final
state) touches the datastore and carries port 27017. -/
theorem C3_witness :
    getAttr (finalState.get ⟨20, by decide⟩).2.2 .dstPort = some (.vNat 27017) ∧
    attrOf finalState .app_db .port = some (.vNat 27017) :=
  C3_db_port_consistent (finalState.get ⟨20, by decide⟩)
    (List.get_mem _ _ _) (by decide) (Or.inr (by decide))

/-- C4: every Dataflow construction names a source and a sink that were
declared, earlier in the statement sequence, as an Actor, Server or
Datastore. -/
theorem C4_dataflow_endpoints_declared :
    ∀ i, ∀ hi : i < script.length,
      stmtKind (script.get ⟨i, hi⟩) = some EntityKind.dataflow →
      ∀ ep : EntityId,
        (stmtSource (script.get ⟨i, hi⟩) = some ep ∨
         stmtSink (script.get ⟨i, hi⟩) = some ep) →
        ∃ s ∈ script.take i, constructsEndpoint s ep = true := by
  decide

/-- C4 witness: the first dataflow (`user_to_frontend`, statement 63)
has its source `user` declared earlier as an Actor. -/
theorem C4_witness :
    ∃ s ∈ script.take 63, constructsEndpoint s EntityId.user = true :=
  C4_dataflow_endpoints_declared 63 (by decide) (by decide)
    EntityId.user (Or.inl (by decide))

/-- C5: every Data object attached to a `data` annotation of a Dataflow
is constructed, as a Data object, earlier in the statement sequence
than the construction of the Dataflow that references it. -/
theorem C5_data_declared_before_use :
    ∀ i, ∀ hi : i < script.length, ∀ f : EntityId,
      stmtOwner (script.get ⟨i, hi⟩) = some f →
      ∀ d ∈ assignedDataRefs (script.get ⟨i, hi⟩),
      ∀ k, ∀ hk : k < script.length,
        isConstructOf f (script.get ⟨k, hk⟩) = true →
        ∃ s ∈ script.take k, isDataConstruct d s = true := by
  decide

/-- C5 witness: `credentials`, referenced by the `data` annotation of
`api_to_db_auth` (statement 89), is constructed before that dataflow's
construction (statement 86). -/
theorem C5_witness :
    ∃ s ∈ script.take 86, isDataConstruct EntityId.credentials s = true :=
  C5_data_declared_before_use 89 (by decide) EntityId.api_to_db_auth (by decide)
    EntityId.credentials (by decide) 86 (by decide) (by decide)

/-- C6: every value the script writes into `classification` or
`maxClassification`, whether by assignment or constructor argument, is
a member of the fixed classification enumeration, whose rank order is
PUBLIC < SENSITIVE < RESTRICTED. -/
theorem C6_classification_members :
    (∀ s ∈ script, ∀ v ∈ classValuesOf s,
        ∃ c ∈ classificationMembers, v = Value.vClass c) ∧
    Classification.rank .PUBLIC < Classification.rank .SENSITIVE ∧
    Classification.rank .SENSITIVE < Classification.rank .RESTRICTED := by
  refine ⟨by decide, by decide, by decide⟩

/-- C6 witness: the value written by the `credentials.classification`
assignment is the member SENSITIVE. -/
theorem C6_witness :
    ∃ c ∈ classificationMembers, Value.vClass Classification.SENSITIVE = Value.vClass c :=
  C6_classification_members.1
    (Stmt.assign .credentials .classification (.vClass .SENSITIVE))
    (by decide) (Value.vClass Classification.SENSITIVE) (by decide)

/-- C7: two executions of the script under arbitrary (possibly
different) external worlds produce the same final state and the same
effects, both as a main program and as an import: construction never
reads the world, so the entity graph is deterministic. -/
theorem C7_deterministic_graph (w₁ w₂ : World) :
    execList w₁ [] (scriptRun true) = execList w₂ [] (scriptRun true) ∧
    execList w₁ [] (scriptRun false) = execList w₂ [] (scriptRun false) :=
  ⟨rfl, rfl⟩

/-- C8: every statement of the script body is a construction or an
attribute assignment; under any world the body emits no effect, and a
main-program run emits exactly one effect, the library's `process()`
call on the completed graph. -/
theorem C8_no_effects_before_process :
    script.countP (fun s => !(isConstructive s)) = 0 ∧
    (∀ w : World, (execList w [] script).2 = []) ∧
    (∀ w : World, (execList w [] (scriptRun true)).2 = [Effect.processCall finalState]) := by
  refine ⟨by decide, fun _ => rfl, fun w => ?_⟩
  rw [execList_ignores_world w anyWorld [] (scriptRun true) (by decide)]
  decide

/-- C9: the `__main__` guard makes `tm.process()` the unique, final
statement of a main-program run; an import runs the body alone, never
calls `process()`, and still builds the full entity graph. -/
theorem C9_main_guard :
    scriptRun true = script ++ [Stmt.process] ∧
    scriptRun false = script ∧
    (scriptRun true).countP isProcess = 1 ∧
    (scriptRun true).getLast? = some Stmt.process ∧
    (scriptRun false).countP isProcess = 0 ∧
    (∀ w : World, (execList w [] (scriptRun false)).1 = finalState) ∧
    (∀ w : World, (execList w [] (scriptRun true)).1 = finalState) := by
  refine ⟨rfl, rfl, by decide, by decide, by decide, fun _ => rfl, fun w => ?_⟩
  rw [execList_ignores_world w anyWorld [] (scriptRun true) (by decide)]
  decide

/-- C10: every Data object of the final graph whose `isStored`
attribute is True also has `isDestEncryptedAtRest` True. -/
theorem C10_stored_implies_encrypted (p : EntityId × EntityKind × Attrs)
    (hmem : p ∈ finalState) (hkind : p.2.1 = EntityKind.data)
    (hstored : getAttr p.2.2 .isStored = some (.vBool true)) :
    getAttr p.2.2 .isDestEncryptedAtRest = some (.vBool true) := by
  revert hkind hstored; revert p; decide

/-- C10 witness: `credentials` (entry 9 of the final state) is stored
and marked encrypted at rest. -/
theorem C10_witness :
    getAttr (finalState.get ⟨9, by decide⟩).2.2 .isDestEncryptedAtRest =
      some (.vBool true) :=
  C10_stored_implies_encrypted (finalState.get ⟨9, by decide⟩)
    (List.get_mem _ _ _) (by decide) (by decide)

end GymCoachTM
